import Mathlib

/-
Verification of the Scoring and Projection Engine of `stock_ai_screener.py`.

The embedding below translates the three core operations of the source —
`calculate_score`, `calculate_investment_scenario` and
`monte_carlo_projection` — into Lean over exact rationals.  Python floats
are idealized as ℚ; the pseudo-random normal samples drawn inside the
Monte Carlo loop are abstracted as an explicit stream of shock values
passed in as a function argument.  Python exceptions are modelled by an
`Except` result type; Python truthiness tests on optional numeric fields
(`if data[k]:`) are translated literally, i.e. they hold exactly when the
field is present with a nonzero value.
-/

/-- Python exceptions that the translated operations can raise. -/
inductive PyErr where
  | zeroDivisionError : PyErr
  | valueError : PyErr
  | indexError : PyErr
deriving DecidableEq

/-- The Metric Record: the per-ticker snapshot consumed by `calculate_score`
and `calculate_investment_scenario`.  Every field the scorer reads is
optional, mirroring the `None` values the data layer may leave in the dict. -/
structure MetricRecord where
  pe_ratio : Option ℚ
  roe : Option ℚ
  debt_to_equity : Option ℚ
  revenue_growth : Option ℚ
  current_price : Option ℚ
  price_50_sma : Option ℚ
  volume_avg : Option ℚ
  volume_recent : Option ℚ
  volatility : Option ℚ
deriving DecidableEq

/-- The human-readable reason strings appended by `calculate_score`,
one constructor per distinct Python format string:
`highPE v` is the string built from High P/E and the value,
`noPEData` is the literal No P/E data string, `lowROE v` is Low ROE,
`noROEData` is No ROE data, `highDebtEquity v` is High Debt/Equity,
`lowRevenueGrowth v` is Low revenue growth, `priceBelowSMA r` is
Price below 50-day SMA with the computed ratio, `noTechnicalData` is
No technical data, `lowOverallScore n` is Low overall score with the
total, and `noDataAvailable` is No data available. -/
inductive Reason where
  | highPE : ℚ → Reason
  | noPEData : Reason
  | lowROE : ℚ → Reason
  | noROEData : Reason
  | highDebtEquity : ℚ → Reason
  | lowRevenueGrowth : ℚ → Reason
  | priceBelowSMA : ℚ → Reason
  | noTechnicalData : Reason
  | lowOverallScore : ℕ → Reason
  | noDataAvailable : Reason
deriving DecidableEq

/-- The P/E factor of `calculate_score` (lines 188-199 of the source):
guard `data[pe_ratio] and data[pe_ratio] > 0`, i.e. present and positive;
thresholds 15 / 25 / 35 award 20 / 15 / 10 points; a positive value above
35 appends High P/E and clears the pass flag; any other shape appends
No P/E data.  Result: (points, appended reasons, pass flag left true?). -/
def peEval : Option ℚ → ℕ × List Reason × Bool
  | none => (0, [Reason.noPEData], true)
  | some v =>
    if 0 < v then
      if v ≤ 15 then (20, [], true)
      else if v ≤ 25 then (15, [], true)
      else if v ≤ 35 then (10, [], true)
      else (0, [Reason.highPE v], false)
    else (0, [Reason.noPEData], true)

/-- The ROE factor (lines 202-213): guard `data[roe]` is Python truthiness,
so a present value of exactly 0 falls into the No ROE data branch;
thresholds 0.20 / 0.15 / 0.10 award 20 / 15 / 10 points; a present nonzero
value below 0.10 appends Low ROE and clears the pass flag. -/
def roeEval : Option ℚ → ℕ × List Reason × Bool
  | none => (0, [Reason.noROEData], true)
  | some v =>
    if v = 0 then (0, [Reason.noROEData], true)
    else if 1/5 ≤ v then (20, [], true)
    else if 3/20 ≤ v then (15, [], true)
    else if 1/10 ≤ v then (10, [], true)
    else (0, [Reason.lowROE v], false)

/-- The debt-to-equity factor (lines 216-225): guard `data[debt_to_equity]`
is truthiness, so a present 0 is silently skipped (no points, no reason);
thresholds 0.3 / 0.5 / 0.7 award 15 / 10 / 5 points; a present value above
0.7 appends High Debt/Equity and clears the pass flag.  There is no
missing-data branch for this factor in the source. -/
def deEval : Option ℚ → ℕ × List Reason × Bool
  | none => (0, [], true)
  | some v =>
    if v = 0 then (0, [], true)
    else if v ≤ 3/10 then (15, [], true)
    else if v ≤ 1/2 then (10, [], true)
    else if v ≤ 7/10 then (5, [], true)
    else (0, [Reason.highDebtEquity v], false)

/-- The revenue-growth factor (lines 228-236): guard `data[revenue_growth]`
is truthiness; thresholds 0.15 / 0.10 / 0.05 award 15 / 12 / 8 points; a
present nonzero value below 0.05 appends Low revenue growth but never
touches the pass flag.  No missing-data branch exists in the source. -/
def rgEval : Option ℚ → ℕ × List Reason
  | none => (0, [])
  | some v =>
    if v = 0 then (0, [])
    else if 3/20 ≤ v then (15, [])
    else if 1/10 ≤ v then (12, [])
    else if 1/20 ≤ v then (8, [])
    else (0, [Reason.lowRevenueGrowth v])

/-- The price-versus-50-day-SMA factor (lines 241-252): guard
`data[price_50_sma] and data[current_price]` is truthiness of both, so a
zero in either field falls into the No technical data branch; otherwise
the ratio price / sma is scored with thresholds 1.0 / 0.95 / 0.90 awarding
15 / 10 / 5 points; a lower ratio appends Price below 50-day SMA. -/
def priceEval (sma cp : Option ℚ) : ℕ × List Reason :=
  match sma, cp with
  | some s, some p =>
    if s = 0 ∨ p = 0 then (0, [Reason.noTechnicalData])
    else
      if 1 ≤ p / s then (15, [])
      else if 19/20 ≤ p / s then (10, [])
      else if 9/10 ≤ p / s then (5, [])
      else (0, [Reason.priceBelowSMA (p / s)])
  | _, _ => (0, [Reason.noTechnicalData])

/-- The volume factor (lines 254-261): guard
`data[volume_avg] and data[volume_recent] and data[volume_avg] > 0`;
thresholds 1.2 / 0.8 / 0.5 on recent / average award 15 / 10 / 5 points;
this factor never appends a reason and never touches the pass flag. -/
def volScore (va vr : Option ℚ) : ℕ :=
  match va, vr with
  | some a, some r =>
    if a ≠ 0 ∧ r ≠ 0 ∧ 0 < a then
      if 6/5 ≤ r / a then 15
      else if 4/5 ≤ r / a then 10
      else if 1/2 ≤ r / a then 5
      else 0
    else 0
  | _, _ => 0

/-- Fundamental subtotal of `calculate_score` (the `fundamental_score`
accumulator of the source, max 70). -/
def fundamentalScore (d : MetricRecord) : ℕ :=
  (peEval d.pe_ratio).1 + (roeEval d.roe).1 + (deEval d.debt_to_equity).1
    + (rgEval d.revenue_growth).1

/-- Technical subtotal of `calculate_score` (the `technical_score`
accumulator of the source, max 30). -/
def technicalScore (d : MetricRecord) : ℕ :=
  (priceEval d.price_50_sma d.current_price).1
    + volScore d.volume_avg d.volume_recent

/-- `calculate_score` (lines 175-269): returns (passes, total score,
ordered reasons).  An absent record short-circuits to
(false, 0, No data available).  Otherwise the six factors are evaluated
in source order, their points summed; `passes` starts true, is cleared by
the P/E, ROE and debt-to-equity bad-value branches, and finally by a
total below 60, which also appends Low overall score. -/
def calculate_score : Option MetricRecord → Bool × ℕ × List Reason
  | none => (false, 0, [Reason.noDataAvailable])
  | some d =>
    let total := fundamentalScore d + technicalScore d
    let passes := (peEval d.pe_ratio).2.2 && (roeEval d.roe).2.2
      && (deEval d.debt_to_equity).2.2 && decide (60 ≤ total)
    let reasons := (peEval d.pe_ratio).2.1 ++ (roeEval d.roe).2.1
      ++ (deEval d.debt_to_equity).2.1 ++ (rgEval d.revenue_growth).2
      ++ (priceEval d.price_50_sma d.current_price).2
      ++ (if total < 60 then [Reason.lowOverallScore total] else [])
    (passes, total, reasons)

/-- A Metric Record with every field absent, used as a base for the
concrete records below. -/
def allNone : MetricRecord :=
  ⟨none, none, none, none, none, none, none, none, none⟩

/-- The per-step price walk of `monte_carlo_projection` (lines 152-156):
starting from the current price, each day multiplies the running price by
(1 + drift + shock) with the fixed drift 0.0004 = 1/2500; the shock values
are the normal samples of the source, abstracted here as a given stream. -/
def pricePath (cp : ℚ) (shock : ℕ → ℚ) : ℕ → ℚ
  | 0 => cp
  | n + 1 => pricePath cp shock n * (1 + 1/2500 + shock n)

/-- The list of per-trial final values of `monte_carlo_projection`
(lines 151-159): one simulated path per trial, final price times shares. -/
def finalValues (cp sh : ℚ) (days sims : ℕ) (shock : ℕ → ℕ → ℚ) : List ℚ :=
  (List.range sims).map fun i => pricePath cp (shock i) days * sh

/-- `np.mean`: arithmetic mean of a list (sum divided by length). -/
def np_mean (xs : List ℚ) : ℚ := xs.sum / xs.length

/-- Insertion into a sorted list, for the sort inside `np.percentile`. -/
def insertSorted (x : ℚ) : List ℚ → List ℚ
  | [] => [x]
  | y :: ys => if x ≤ y then x :: y :: ys else y :: insertSorted x ys

/-- Ascending sort of a list of rationals, for `np.percentile`. -/
def sortAsc : List ℚ → List ℚ
  | [] => []
  | x :: xs => insertSorted x (sortAsc xs)

/-- `np.percentile` with the default linear interpolation: the rank is
p / 100 times (n - 1); the result interpolates between the two adjacent
entries of the sorted data. -/
def np_percentile (xs : List ℚ) (p : ℚ) : ℚ :=
  let s := sortAsc xs
  let k := p / 100 * ((xs.length : ℚ) - 1)
  let f := (⌊k⌋).toNat
  let lo := s.getD f 0
  let hi := s.getD (f + 1) lo
  lo + (k - (f : ℚ)) * (hi - lo)

/-- The result dictionary of `monte_carlo_projection`. -/
structure ProjectionResult where
  average : ℚ
  best_case : ℚ
  worst_case : ℚ
  probability_profit : ℚ
deriving DecidableEq

/-- The fixed fallback dictionary of the bare except branch
(lines 167-173): 1000 times 1.15 / 1.3 / 0.85 and probability 0.65,
hard-coded from the default 1000-dollar budget. -/
def fallbackProjection : ProjectionResult :=
  { average := 1000 * (23/20)
    best_case := 1000 * (13/10)
    worst_case := 1000 * (17/20)
    probability_profit := 13/20 }

/-- The try block of `monte_carlo_projection` (lines 148-166).  The two
ways the Python body can raise are modelled explicitly: with at least one
trial and at least one day, the first call `np.random.normal(0, scale)`
raises ValueError when the scale is negative, i.e. when volatility < 0;
with zero trials the final list is empty and `np.percentile` raises
IndexError.  Otherwise the body returns mean, 90th and 10th percentile of
the final values, and the fraction of trials whose value strictly exceeds
the literal constant 1000 (line 165). -/
def monte_carlo_body (cp vol sh : ℚ) (days sims : ℕ)
    (shock : ℕ → ℕ → ℚ) : Except PyErr ProjectionResult :=
  if 0 < sims ∧ 0 < days ∧ vol < 0 then Except.error PyErr.valueError
  else if sims = 0 then Except.error PyErr.indexError
  else
    let vals := finalValues cp sh days sims shock
    Except.ok
      { average := np_mean vals
        best_case := np_percentile vals 90
        worst_case := np_percentile vals 10
        probability_profit :=
          ((vals.countP fun v => decide (1000 < v) : ℕ) : ℚ) / (vals.length : ℚ) }

/-- `monte_carlo_projection` (lines 145-173): the try body when it
succeeds, the fixed fallback dictionary when it raises. -/
def monte_carlo_projection (cp vol sh : ℚ) (days sims : ℕ)
    (shock : ℕ → ℕ → ℚ) : ProjectionResult :=
  match monte_carlo_body cp vol sh days sims shock with
  | Except.ok r => r
  | Except.error _ => fallbackProjection

/-- Python `round` to an integer: round half to even (banker's rounding),
idealized over ℚ. -/
def pythonRound (q : ℚ) : ℤ :=
  if Int.fract q = 1/2 then 2 * round (q / 2) else round q

/-- Python `round(x, 2)`: round to 2 decimal places, half to even. -/
def round2 (q : ℚ) : ℚ := (pythonRound (q * 100) : ℚ) / 100

/-- The slice of the module criteria dict that
`calculate_investment_scenario` reads (lines 97-99). -/
structure Criteria where
  investment_amount : ℚ
  stop_loss_percentage : ℚ
  take_profit_percentage : ℚ

/-- The default criteria of the source: 1000 dollars, 8 percent stop
loss, 20 percent take profit (lines 26-28). -/
def defaultCriteria : Criteria := ⟨1000, 2/25, 1/5⟩

/-- The scenario dictionary returned by `calculate_investment_scenario`
(lines 120-141), field for field. -/
structure InvestmentScenario where
  investment_amount : ℚ
  current_price : ℚ
  shares : ℚ
  total_cost : ℚ
  stop_loss_price : ℚ
  take_profit_price : ℚ
  risk_per_share : ℚ
  total_risk : ℚ
  risk_reward_ratio : ℚ
  conservative_value : ℚ
  moderate_value : ℚ
  aggressive_value : ℚ
  mc_avg_projection : ℚ
  mc_best_case : ℚ
  mc_worst_case : ℚ
  mc_probability_profit : ℚ
deriving DecidableEq

/-- `calculate_investment_scenario` (lines 91-143).  An absent record or
absent current price returns the empty dict (modelled as `none`).  A
present current price of exactly 0 passes that guard, and the division
`investment / current_price` on line 103 then raises ZeroDivisionError;
likewise a zero stop-loss percentage makes the risk-reward division on
line 129 raise.  Otherwise the scenario is assembled with every monetary
field passed through `round(x, 2)` and the Monte Carlo probability taken
raw; the volatility handed to the simulator defaults to 0.3 when absent
(line 100), and the simulator runs with the default 252 days and 1000
simulations. -/
def calculate_investment_scenario (c : Criteria) (data : Option MetricRecord)
    (shock : ℕ → ℕ → ℚ) : Except PyErr (Option InvestmentScenario) :=
  match data with
  | none => Except.ok none
  | some d =>
    match d.current_price with
    | none => Except.ok none
    | some current_price =>
      if current_price = 0 then Except.error PyErr.zeroDivisionError
      else if c.stop_loss_percentage = 0 then Except.error PyErr.zeroDivisionError
      else
        let investment := c.investment_amount
        let volatility := d.volatility.getD (3/10)
        let shares := investment / current_price
        let total_cost := shares * current_price
        let stop_loss_price := current_price * (1 - c.stop_loss_percentage)
        let take_profit_price := current_price * (1 + c.take_profit_percentage)
        let risk_per_share := current_price - stop_loss_price
        let total_risk := risk_per_share * shares
        let projections := monte_carlo_projection current_price volatility shares 252 1000 shock
        Except.ok (some
          { investment_amount := investment
            current_price := current_price
            shares := round2 shares
            total_cost := round2 total_cost
            stop_loss_price := round2 stop_loss_price
            take_profit_price := round2 take_profit_price
            risk_per_share := round2 risk_per_share
            total_risk := round2 total_risk
            risk_reward_ratio := round2 (c.take_profit_percentage / c.stop_loss_percentage)
            conservative_value := round2 (total_cost * (1 + 2/25))
            moderate_value := round2 (total_cost * (1 + 3/20))
            aggressive_value := round2 (total_cost * (1 + 1/4))
            mc_avg_projection := round2 projections.average
            mc_best_case := round2 projections.best_case
            mc_worst_case := round2 projections.worst_case
            mc_probability_profit := projections.probability_profit })

/-- An all-zero shock stream, used to instantiate theorems at concrete
inputs. -/
def zshock : ℕ → ℕ → ℚ := fun _ _ => 0

/-- Written from the threshold tables of section 4.1 of the spec, for
comparison with `calculate_score`: each factor is scored from the value
of its present field (P/E must be positive per the table), a missing
factor scores 0, and the volume row requires a positive average volume
as the table states. -/
def specTableScore (d : MetricRecord) : ℕ :=
  (match d.pe_ratio with
   | none => 0
   | some v =>
     if 0 < v then
       if v ≤ 15 then 20 else if v ≤ 25 then 15 else if v ≤ 35 then 10 else 0
     else 0)
  + (match d.roe with
     | none => 0
     | some v => if 1/5 ≤ v then 20 else if 3/20 ≤ v then 15 else if 1/10 ≤ v then 10 else 0)
  + (match d.debt_to_equity with
     | none => 0
     | some v => if v ≤ 3/10 then 15 else if v ≤ 1/2 then 10 else if v ≤ 7/10 then 5 else 0)
  + (match d.revenue_growth with
     | none => 0
     | some v => if 3/20 ≤ v then 15 else if 1/10 ≤ v then 12 else if 1/20 ≤ v then 8 else 0)
  + (match d.current_price, d.price_50_sma with
     | some p, some s =>
       if 1 ≤ p / s then 15 else if 19/20 ≤ p / s then 10 else if 9/10 ≤ p / s then 5 else 0
     | _, _ => 0)
  + (match d.volume_recent, d.volume_avg with
     | some vr, some va =>
       if 0 < va then
         if 6/5 ≤ vr / va then 15 else if 4/5 ≤ vr / va then 10
         else if 1/2 ≤ vr / va then 5 else 0
       else 0
     | _, _ => 0)

/-- A record whose ROE is present with value exactly 0 and whose other
fields are favorable: P/E 12, debt-to-equity 0.25, revenue growth 0.18,
price 105 against a 50-day SMA of 100, recent volume 130 against average
volume 100. -/
def rC1 : MetricRecord :=
  { allNone with
    pe_ratio := some 12
    roe := some 0
    debt_to_equity := some (1/4)
    revenue_growth := some (9/50)
    current_price := some 105
    price_50_sma := some 100
    volume_avg := some 100
    volume_recent := some 130 }

/-- A record whose ROE and debt-to-equity are both present with value 0
and whose other fields are absent. -/
def rC2 : MetricRecord :=
  { allNone with
    roe := some 0
    debt_to_equity := some 0 }

/-- The favorable record of `rC1` with ROE 0.22, but debt-to-equity
present with value exactly 0. -/
def rC3 : MetricRecord :=
  { rC1 with
    roe := some (11/50)
    debt_to_equity := some 0 }

/-- A record with absent debt-to-equity and revenue growth and favorable
values everywhere else: P/E 12, ROE 0.22, price 105 over SMA 100, recent
volume 130 over average 100. -/
def rC4 : MetricRecord :=
  { allNone with
    pe_ratio := some 12
    roe := some (11/50)
    current_price := some 105
    price_50_sma := some 100
    volume_avg := some 100
    volume_recent := some 130 }

/-- The record of the section 8 example: P/E 12, ROE 0.22, debt-to-equity
0.25, revenue growth 0.18, price over SMA ratio 1.05, volume ratio 1.3. -/
def rC5 : MetricRecord :=
  { rC1 with roe := some (11/50) }

/-- The record of the section 8 scenario example: current price 100 and
volatility 0.3, nothing else known. -/
def rC6 : MetricRecord :=
  { allNone with
    current_price := some 100
    volatility := some (3/10) }

/-- A record whose only present field is a current price of 100. -/
def rC7 : MetricRecord :=
  { allNone with current_price := some 100 }

/-- A record whose current price is present with value exactly 0. -/
def rC7zero : MetricRecord :=
  { allNone with current_price := some 0 }

/-- The pass flag of the P/E factor is cleared exactly on a present value
above 35. -/
lemma peEval_flag_false_iff (o : Option ℚ) :
    (peEval o).2.2 = false ↔ ∃ v, o = some v ∧ 35 < v := by
  cases o with
  | none => simp [peEval]
  | some v =>
    simp only [peEval]
    split_ifs with h1 h2 h3 h4 <;> simp_all <;> linarith

/-- The pass flag of the ROE factor is cleared exactly on a present
nonzero value below 0.10. -/
lemma roeEval_flag_false_iff (o : Option ℚ) :
    (roeEval o).2.2 = false ↔ ∃ v, o = some v ∧ v ≠ 0 ∧ v < 1/10 := by
  cases o with
  | none => simp [roeEval]
  | some v =>
    simp only [roeEval]
    split_ifs with h1 h2 h3 h4 <;> simp_all <;> linarith

/-- The pass flag of the debt-to-equity factor is cleared exactly on a
present value above 0.7. -/
lemma deEval_flag_false_iff (o : Option ℚ) :
    (deEval o).2.2 = false ↔ ∃ v, o = some v ∧ 7/10 < v := by
  cases o with
  | none => simp [deEval]
  | some v =>
    simp only [deEval]
    split_ifs with h1 h2 h3 h4 <;> simp_all <;> linarith

/-- The pass flag of `calculate_score` is the conjunction of the three
factor flags and the threshold on the total. -/
lemma calculate_score_passes_eq (d : MetricRecord) :
    (calculate_score (some d)).1 =
      ((peEval d.pe_ratio).2.2 && (roeEval d.roe).2.2
        && (deEval d.debt_to_equity).2.2
        && decide (60 ≤ (calculate_score (some d)).2.1)) := rfl

/-- C1: the code contradicts the claim at `rC1`.  There the ROE field is
present with value 0, so the low-ROE hard-disqualifier condition
ROE < 0.10 holds on a present field, yet `calculate_score` returns
passes = true with score 80 and only a No-ROE-data reason: the Python
truthiness guard on line 202 conflates the present 0 with a missing
value instead of firing the disqualifier. -/
theorem c1_disqualifier_holds_yet_passes :
    rC1.roe = some 0 ∧ (0 : ℚ) < 1/10 ∧
    calculate_score (some rC1) = (true, 80, [Reason.noROEData]) := by
  refine ⟨rfl, by norm_num, ?_⟩
  norm_num [calculate_score, fundamentalScore, technicalScore, peEval, roeEval,
    deEval, rgEval, priceEval, volScore, rC1, allNone]

/-- C2: the code contradicts the claim at `rC2`, where ROE and
debt-to-equity are present with value exactly 0.  The claim (and the
invariant of section 3 of the spec) say the zero values are known data:
debt-to-equity 0 should earn the 15 points of its threshold row and
ROE 0 should fire the low-ROE disqualifier.  Instead the truthiness
guards treat both as missing: the scorer appends No ROE data, gives the
debt factor 0 points and no reason, fires no disqualifier, and the
total stays 0. -/
theorem c2_zero_fields_handled_as_unknown :
    rC2.roe = some 0 ∧ rC2.debt_to_equity = some 0 ∧
    calculate_score (some rC2) =
      (false, 0, [Reason.noPEData, Reason.noROEData, Reason.noTechnicalData,
        Reason.lowOverallScore 0]) := by
  refine ⟨rfl, rfl, ?_⟩
  norm_num [calculate_score, fundamentalScore, technicalScore, peEval, roeEval,
    deEval, rgEval, priceEval, volScore, rC2, allNone]

/-- C3: the code contradicts the claim at `rC3`, whose debt-to-equity is
present with value exactly 0.  The section 4.1 table awards that factor
15 points (0 is at most 0.3), so the table sum is 100, but the code's
truthiness guard skips the factor and returns total score 85. -/
theorem c3_score_differs_from_table_at_zero_debt :
    rC3.debt_to_equity = some 0 ∧ specTableScore rC3 = 100 ∧
    (calculate_score (some rC3)).2.1 = 85 := by
  refine ⟨rfl, ?_, ?_⟩
  · norm_num [specTableScore, rC3, rC1, allNone]
  · norm_num [calculate_score, fundamentalScore, technicalScore, peEval, roeEval,
      deEval, rgEval, priceEval, volScore, rC3, rC1, allNone]

/-- C4 counterexample: the claim says every individually missing field
gets an explanatory reason, in particular missing debt-to-equity and
revenue growth.  At `rC4` both fields are absent, yet the returned
reasons list is empty: the source has no missing-data branch for either
factor. -/
theorem c4_missing_fields_no_reason :
    rC4.debt_to_equity = none ∧ rC4.revenue_growth = none ∧
    calculate_score (some rC4) = (true, 70, []) := by
  refine ⟨rfl, rfl, ?_⟩
  norm_num [calculate_score, fundamentalScore, technicalScore, peEval, roeEval,
    deEval, rgEval, priceEval, volScore, rC4, allNone]

/-- C4 amended: a missing P/E, ROE, or 50-day-SMA field contributes 0
points and appends its explanatory reason (No P/E data, No ROE data,
No technical data); a missing debt-to-equity, revenue-growth, or volume
field contributes 0 points but appends no reason; and no missing field
alone makes the record fail: passes is false only when the total is
below 60 or a present bad value fired one of the three disqualifier
branches. -/
theorem c4_missing_field_policy (d : MetricRecord) :
    (d.pe_ratio = none → peEval d.pe_ratio = (0, [Reason.noPEData], true)) ∧
    (d.roe = none → roeEval d.roe = (0, [Reason.noROEData], true)) ∧
    (d.debt_to_equity = none → deEval d.debt_to_equity = (0, [], true)) ∧
    (d.revenue_growth = none → rgEval d.revenue_growth = (0, [])) ∧
    (d.price_50_sma = none →
      priceEval d.price_50_sma d.current_price = (0, [Reason.noTechnicalData])) ∧
    (d.volume_avg = none → volScore d.volume_avg d.volume_recent = 0) ∧
    ((calculate_score (some d)).1 = false →
      (calculate_score (some d)).2.1 < 60 ∨
      (∃ v, d.pe_ratio = some v ∧ 35 < v) ∨
      (∃ v, d.roe = some v ∧ v ≠ 0 ∧ v < 1/10) ∨
      (∃ v, d.debt_to_equity = some v ∧ 7/10 < v)) := by
  refine ⟨?_, ?_, ?_, ?_, ?_, ?_, ?_⟩
  · intro h; rw [h]; rfl
  · intro h; rw [h]; rfl
  · intro h; rw [h]; rfl
  · intro h; rw [h]; rfl
  · intro h; cases d.current_price <;> simp [priceEval, h]
  · intro h; cases d.volume_recent <;> simp [volScore, h]
  · intro hp
    rw [calculate_score_passes_eq] at hp
    simp only [Bool.and_eq_false_iff] at hp
    rcases hp with ((hpe | hroe) | hde) | htot
    · exact Or.inr (Or.inl ((peEval_flag_false_iff _).mp hpe))
    · exact Or.inr (Or.inr (Or.inl ((roeEval_flag_false_iff _).mp hroe)))
    · exact Or.inr (Or.inr (Or.inr ((deEval_flag_false_iff _).mp hde)))
    · left; simpa using htot

/-- C4 amended, instantiated at `rC4`: its absent debt-to-equity and
revenue-growth fields evaluate to 0 points with no reason. -/
theorem c4_missing_field_policy_witness :
    rC4.debt_to_equity = none ∧ deEval rC4.debt_to_equity = (0, [], true) ∧
    rC4.revenue_growth = none ∧ rgEval rC4.revenue_growth = (0, []) :=
  ⟨rfl, (c4_missing_field_policy rC4).2.2.1 rfl, rfl,
    (c4_missing_field_policy rC4).2.2.2.1 rfl⟩

/-- C5: on the section 8 example record (P/E 12, ROE 0.22, debt-to-equity
0.25, revenue growth 0.18, price over SMA 1.05, volume ratio 1.3) the
scorer returns fundamental subtotal 70, technical subtotal 30, total
score 100, passes = true, and no reasons. -/
theorem c5_section8_example :
    calculate_score (some rC5) = (true, 100, []) ∧
    fundamentalScore rC5 = 70 ∧ technicalScore rC5 = 30 := by
  refine ⟨?_, ?_, ?_⟩ <;>
    norm_num [calculate_score, fundamentalScore, technicalScore, peEval, roeEval,
      deEval, rgEval, priceEval, volScore, rC5, rC1, allNone]

set_option maxRecDepth 10000 in
/-- C6: on a record with current price 100, under the default criteria
(1000 dollars invested, 8 percent stop loss, 20 percent take profit),
the scenario calculator returns shares 10, stop-loss price 92,
take-profit price 120, total risk 80, risk-reward ratio 2.5,
conservative value 1080, moderate value 1150, aggressive value 1250;
every monetary field is the 2-decimal rounding of its raw value and the
Monte Carlo probability of profit is passed through unrounded, whatever
the random stream produced. -/
theorem c6_default_scenario_values (shock : ℕ → ℕ → ℚ) :
    calculate_investment_scenario defaultCriteria (some rC6) shock =
      Except.ok (some
        { investment_amount := 1000
          current_price := 100
          shares := 10
          total_cost := 1000
          stop_loss_price := 92
          take_profit_price := 120
          risk_per_share := 8
          total_risk := 80
          risk_reward_ratio := 5/2
          conservative_value := 1080
          moderate_value := 1150
          aggressive_value := 1250
          mc_avg_projection :=
            round2 (monte_carlo_projection 100 (3/10) 10 252 1000 shock).average
          mc_best_case :=
            round2 (monte_carlo_projection 100 (3/10) 10 252 1000 shock).best_case
          mc_worst_case :=
            round2 (monte_carlo_projection 100 (3/10) 10 252 1000 shock).worst_case
          mc_probability_profit :=
            (monte_carlo_projection 100 (3/10) 10 252 1000 shock).probability_profit }) := by
  simp only [calculate_investment_scenario, rC6, allNone, defaultCriteria, Option.getD]
  rw [if_neg (by norm_num), if_neg (by norm_num)]
  norm_num [Except.ok.injEq, Option.some.injEq, InvestmentScenario.mk.injEq]
  refine ⟨?_, ?_, ?_, ?_, ?_, ?_, ?_, ?_, ?_, ?_⟩ <;>
    norm_num [round2, pythonRound, Int.fract, round_eq]

/-- C7 counterexample: a record whose current price is present with value
exactly 0 slips past the None guard of `calculate_investment_scenario`,
and the position-sizing division on line 103 raises ZeroDivisionError
instead of returning a value. -/
theorem c7_zero_price_raises :
    calculate_investment_scenario defaultCriteria (some rC7zero) zshock =
      Except.error PyErr.zeroDivisionError := by
  simp [calculate_investment_scenario, rC7zero, allNone]

/-- C7 amended: the scenario calculator returns a value (a scenario or
the empty result) for every record whose current price, when present, is
nonzero; only a present current price of exactly 0 escapes this, raising
a ZeroDivisionError. -/
theorem c7_scenario_total_unless_zero_price (data : Option MetricRecord)
    (shock : ℕ → ℕ → ℚ)
    (h : ∀ r, data = some r → r.current_price ≠ some 0) :
    ∃ v, calculate_investment_scenario defaultCriteria data shock = Except.ok v := by
  cases data with
  | none => exact ⟨none, rfl⟩
  | some d =>
    cases hcp : d.current_price with
    | none => exact ⟨none, by simp [calculate_investment_scenario, hcp]⟩
    | some cp =>
      have hne : cp ≠ 0 := by
        intro h0
        exact (h d rfl) (by rw [hcp, h0])
      simp only [calculate_investment_scenario, hcp, defaultCriteria]
      rw [if_neg hne, if_neg (by norm_num)]
      exact ⟨_, rfl⟩

/-- C7 amended, instantiated at a record with current price 100 and the
zero shock stream: the hypothesis holds and a value is returned. -/
theorem c7_scenario_total_unless_zero_price_witness :
    (∀ r, (some rC7 : Option MetricRecord) = some r → r.current_price ≠ some 0) ∧
    ∃ v, calculate_investment_scenario defaultCriteria (some rC7) zshock = Except.ok v := by
  have h : ∀ r, (some rC7 : Option MetricRecord) = some r → r.current_price ≠ some 0 := by
    intro r hr
    cases hr
    norm_num [rC7, allNone]
  exact ⟨h, c7_scenario_total_unless_zero_price (some rC7) zshock h⟩

/-- C8: on the non-fallback path (nonnegative volatility, at least one
trial), the probability of profit is the number of trials whose final
value, final price times shares, strictly exceeds the literal 1000 of
line 165 — the default budget, not any caller parameter — divided by
the number of trials. -/
theorem c8_probability_profit_fraction (cp vol sh : ℚ) (days sims : ℕ)
    (shock : ℕ → ℕ → ℚ) (hv : 0 ≤ vol) (hs : 0 < sims) :
    (monte_carlo_projection cp vol sh days sims shock).probability_profit =
      (((List.range sims).filter fun i =>
          decide (1000 < pricePath cp (shock i) days * sh)).length : ℚ) / (sims : ℚ) := by
  have h1 : ¬(0 < sims ∧ 0 < days ∧ vol < 0) := by
    rintro ⟨_, _, hneg⟩
    linarith
  simp only [monte_carlo_projection, monte_carlo_body, if_neg h1,
    if_neg (Nat.pos_iff_ne_zero.mp hs)]
  simp only [finalValues, List.countP_eq_length_filter, List.filter_map,
    List.length_map, List.length_range, Function.comp_def]

/-- C8 instantiated: volatility 0 and a single zero-shock trial of zero
days satisfy the hypotheses, and the equation holds there. -/
theorem c8_probability_profit_fraction_witness :
    (0 : ℚ) ≤ 0 ∧ 0 < 1 ∧
    (monte_carlo_projection 100 0 10 0 1 zshock).probability_profit =
      (((List.range 1).filter fun i =>
          decide (1000 < pricePath 100 (zshock i) 0 * 10)).length : ℚ) / (1 : ℚ) :=
  ⟨le_refl 0, Nat.one_pos,
    c8_probability_profit_fraction 100 0 10 0 1 zshock (le_refl 0) Nat.one_pos⟩

/-- C9: whenever the simulation loop raises (negative volatility with at
least one day and one trial makes the first normal draw raise
ValueError), the projection returns exactly the fixed fallback
dictionary — average 1150, best case 1300, worst case 850, probability
0.65 — hard-coded from the default 1000-dollar budget whatever the
shares or prices passed in, and no error escapes. -/
theorem c9_fallback_on_invalid_volatility (cp vol sh : ℚ) (days sims : ℕ)
    (shock : ℕ → ℕ → ℚ) (hv : vol < 0) (hd : 0 < days) (hs : 0 < sims) :
    monte_carlo_projection cp vol sh days sims shock =
      { average := 1150, best_case := 1300, worst_case := 850,
        probability_profit := 13/20 } := by
  have hcond : 0 < sims ∧ 0 < days ∧ vol < 0 := ⟨hs, hd, hv⟩
  simp only [monte_carlo_projection, monte_carlo_body, if_pos hcond]
  norm_num [fallbackProjection, ProjectionResult.mk.injEq]

/-- C9 instantiated: volatility -1 with one day and one trial yields the
fixed fallback dictionary. -/
theorem c9_fallback_on_invalid_volatility_witness :
    (-1 : ℚ) < 0 ∧
    monte_carlo_projection 100 (-1) 10 1 1 zshock =
      { average := 1150, best_case := 1300, worst_case := 850,
        probability_profit := 13/20 } :=
  ⟨by norm_num,
    c9_fallback_on_invalid_volatility 100 (-1) 10 1 1 zshock (by norm_num)
      Nat.one_pos Nat.one_pos⟩

/-- C10: the bare except of `monte_carlo_projection` makes it total: on
every input the function returns a result dictionary.  Every input on
which the try body raises — zero simulations, or negative volatility
with at least one day — is mapped to the fixed fallback dictionary, and
on every other input the returned dictionary is exactly the value the
try body computed, so no exception of any kind reaches the caller. -/
theorem c10_monte_carlo_total (cp vol sh : ℚ) (days sims : ℕ)
    (shock : ℕ → ℕ → ℚ) :
    (sims = 0 ∨ (vol < 0 ∧ days ≠ 0) →
      monte_carlo_projection cp vol sh days sims shock = fallbackProjection) ∧
    ((0 ≤ vol ∨ days = 0) → sims ≠ 0 →
      monte_carlo_body cp vol sh days sims shock =
        Except.ok (monte_carlo_projection cp vol sh days sims shock)) := by
  constructor
  · rintro (h0 | ⟨hneg, hd⟩)
    · subst h0
      simp [monte_carlo_projection, monte_carlo_body]
    · rcases Nat.eq_zero_or_pos sims with h | h
      · subst h
        simp [monte_carlo_projection, monte_carlo_body]
      · have hcond : 0 < sims ∧ 0 < days ∧ vol < 0 := ⟨h, Nat.pos_of_ne_zero hd, hneg⟩
        simp [monte_carlo_projection, monte_carlo_body, if_pos hcond]
  · intro hok hs
    have h1 : ¬(0 < sims ∧ 0 < days ∧ vol < 0) := by
      rintro ⟨_, hd, hneg⟩
      rcases hok with hv | h0
      · linarith
      · omega
    simp [monte_carlo_projection, monte_carlo_body, if_neg h1, if_neg hs]

/-- C10 instantiated: with zero simulations (and negative volatility)
the projection still returns a dictionary, the fallback one. -/
theorem c10_monte_carlo_total_witness :
    monte_carlo_projection 100 (-1) 10 252 0 zshock = fallbackProjection :=
  (c10_monte_carlo_total 100 (-1) 10 252 0 zshock).1 (Or.inl rfl)
